import Mathlib

/-!
Verification of the dbx-multi-user-extract managers: a shallow embedding of
the job controller (notebooks/job_manager.py), the Entra identity manager
(src/azure/identity/entra_sp_manager.py) and the workspace identity manager
(src/databricks/identity/workspace_sp_manager.py).

HTTP interactions are embedded by passing the remote responses in as values:
a response that arrived is a structure carrying its status code and the
parts of its JSON body the code reads; a transport fault (a requests
exception) is an Except.error input; a caught Python exception that makes
the code return None is reflected by the corresponding branch of the Lean
function.  Wall-clock time in the poll loop advances by the sleep interval
on every non-terminal iteration, which is the only place the code spends
time in the model.
-/

/-- Whether pat is an initial segment of a character list. -/
def charsHeadMatch : List Char → List Char → Bool
  | [], _ => true
  | _ :: _, [] => false
  | p :: ps, c :: cs => p == c && charsHeadMatch ps cs

/-- Whether pat occurs contiguously somewhere in a character list. -/
def charsOccur (pat : List Char) : List Char → Bool
  | [] => charsHeadMatch pat []
  | c :: rest => charsHeadMatch pat (c :: rest) || charsOccur pat rest

/-- Python str.lower for the ASCII texts the code inspects: lowercase every
character. -/
def lowerString (s : String) : String :=
  String.mk (s.data.map Char.toLower)

/-- Python substring test, as in the source's uses of the in operator on
strings: true when pat occurs somewhere in s. -/
def textContains (s pat : String) : Bool :=
  charsOccur pat.data s.data

/-- A job as the code reads it from the jobs/list response: job_id plus the
settings name field (the only settings field the code inspects). -/
structure Job where
  job_id : Nat
  settings_name : String
deriving DecidableEq

/-- The jobs/list response: HTTP status and the decoded jobs array. -/
structure JobListResp where
  status : Nat
  jobs : List Job
deriving DecidableEq

/-- The jobs/create response: HTTP status, raw body text (inspected for
conflict phrases) and the decoded job on success (none when response.json()
would fail). -/
structure JobCreateResp where
  status : Nat
  body : String
  job : Option Job
deriving DecidableEq

/-- ServerlessJobManager.get_job_by_name.  The reply argument is the
jobs/list request outcome: Except.error is a transport fault (the code's
try/except turns it into None), otherwise the arrived response.
raise_for_status raises inside the try block for any status of 400 or more,
which the except clause also turns into None; otherwise the code scans the
decoded jobs for the first exact settings.name match. -/
def get_job_by_name (reply : Except Unit JobListResp) (job_name : String) :
    Option Job :=
  match reply with
  | Except.error _ => none
  | Except.ok r =>
      if 400 ≤ r.status then none
      else r.jobs.find? (fun j => j.settings_name == job_name)

/-- ServerlessJobManager.create_or_get_serverless_job, parameterized by the
outcomes of its (up to) three HTTP calls: the initial jobs/list lookup l1,
the jobs/create response cr, and the fallback jobs/list lookup l2.  The
result is Except.error when the code raises (its except clause re-raises).
On a non-2xx create status the code lowercases the body and falls back to
the lookup only when the text contains an already-exists or duplicate
phrase; a missing fallback job, or any other non-2xx response, raises. -/
def create_or_get_serverless_job (l1 : Except Unit JobListResp)
    (cr : JobCreateResp) (l2 : Except Unit JobListResp) (job_name : String) :
    Except Unit Job :=
  match get_job_by_name l1 job_name with
  | some j => Except.ok j
  | none =>
      if cr.status = 200 ∨ cr.status = 201 then
        match cr.job with
        | some j => Except.ok j
        | none => Except.error ()
      else
        if textContains (lowerString cr.body) "already exists" ∨
            textContains (lowerString cr.body) "duplicate" then
          match get_job_by_name l2 job_name with
          | some j => Except.ok j
          | none => Except.error ()
        else Except.error ()

/-- The remote jobs API as create_or_get_serverless_job exercises it: the
jobs currently listed, the next server-assigned job id, and a counter of
jobs/create requests issued so far. -/
structure JobsApiState where
  jobs : List Job
  nextId : Nat
  createCalls : Nat
deriving DecidableEq

/-- The jobs/list call against the modelled API: always a 200 listing the
current jobs. -/
def api_list (s : JobsApiState) : Except Unit JobListResp :=
  Except.ok ⟨200, s.jobs⟩

/-- The jobs/create call against the modelled API: assigns the next id,
appends the job to the listing and counts the request. -/
def api_create (s : JobsApiState) (job_name : String) : Job × JobsApiState :=
  let j : Job := ⟨s.nextId, job_name⟩
  (j, ⟨s.jobs ++ [j], s.nextId + 1, s.createCalls + 1⟩)

/-- create_or_get_serverless_job run against the modelled jobs API: the code
first lists jobs and returns an existing exact-name match without issuing a
create; only on a miss does it issue jobs/create, whose 200 response body it
returns. -/
def create_or_get_against_api (s : JobsApiState) (job_name : String) :
    Job × JobsApiState :=
  match get_job_by_name (api_list s) job_name with
  | some j => (j, s)
  | none => api_create s job_name

/-- A service principal as the code reads it from the SCIM responses: the
external application id and the display name. -/
structure SP where
  applicationId : String
  displayName : String
deriving DecidableEq

/-- A SCIM ServicePrincipals listing response: HTTP status and the decoded
Resources array. -/
structure SpListResp where
  status : Nat
  resources : List SP
deriving DecidableEq

/-- A SCIM ServicePrincipals creation response: HTTP status, raw body text
and the decoded service principal on success (none when response.json()
would fail). -/
structure SpCreateResp where
  status : Nat
  body : String
  sp : Option SP
deriving DecidableEq

/-- EntraIDServicePrincipalManager.get_sp_by_application_id, parameterized
by the outcomes of its two GET requests: the filtered query and the
unfiltered listing.  A transport fault at either request aborts the try
block and the except clause returns None.  A 200 filtered reply with a
non-empty Resources array yields its first element; otherwise the code
lists everything and filters by applicationId client-side; any other
statuses fall through to None. -/
def get_sp_by_application_id (filterReply listReply : Except Unit SpListResp)
    (app_id : String) : Option SP :=
  match filterReply with
  | Except.error _ => none
  | Except.ok fr =>
      match (if fr.status = 200 then fr.resources.head? else none) with
      | some sp => some sp
      | none =>
          match listReply with
          | Except.error _ => none
          | Except.ok lr =>
              if lr.status = 200 then
                lr.resources.find? (fun sp => sp.applicationId == app_id)
              else none

/-- EntraIDServicePrincipalManager.register_sp_in_workspace, parameterized
by the result of the initial get_sp_by_application_id lookup, the SCIM
creation response, and the result of the fallback get_sp_by_application_id
lookup run when creation answers 409.  Every failure path returns None (the
except clause prints and returns None); the fallback path returns exactly
what the second lookup returned, found or not. -/
def register_sp_in_workspace (pre : Option SP) (cr : SpCreateResp)
    (post : Option SP) : Option SP :=
  match pre with
  | some sp => some sp
  | none =>
      if cr.status = 409 then post
      else if cr.status = 200 ∨ cr.status = 201 then cr.sp
      else none

/-- WorkspaceServicePrincipalManager.get_service_principal_by_name,
parameterized by the outcome of its single GET request.  The function has
no try/except: a transport fault propagates, raise_for_status raises for
any status of 400 or more, and otherwise the first element of the Resources
array (the server-side displayName filter result) is returned, or None when
the array is empty. -/
def get_service_principal_by_name (reply : Except Unit SpListResp)
    (display_name : String) : Except Unit (Option SP) :=
  match reply with
  | Except.error e => Except.error e
  | Except.ok r =>
      if 400 ≤ r.status then Except.error ()
      else Except.ok r.resources.head?

/-- WorkspaceServicePrincipalManager.create_service_principal, parameterized
by the SCIM creation response and the outcomes l1, l2 of the (up to) two
get_service_principal_by_name requests: l1 for the in-try fallback taken on
a 409 status, l2 for the except-clause fallback.  A 409 returns the lookup
result; if that lookup itself raises, the except clause catches and retries
the lookup (which may then propagate).  raise_for_status raises for any
status of 400 or more and the except clause again falls back to the lookup;
a 2xx/3xx response returns its decoded body, falling back to the lookup
when response.json() fails. -/
def create_service_principal (cr : SpCreateResp)
    (l1 l2 : Except Unit SpListResp) (display_name : String) :
    Except Unit (Option SP) :=
  if cr.status = 409 then
    match get_service_principal_by_name l1 display_name with
    | Except.ok v => Except.ok v
    | Except.error _ => get_service_principal_by_name l2 display_name
  else if 400 ≤ cr.status then
    get_service_principal_by_name l2 display_name
  else
    match cr.sp with
    | some sp => Except.ok (some sp)
    | none => get_service_principal_by_name l2 display_name

/-- The OAuth token endpoint response as the code reads it: HTTP status,
raw body text, and the decoded access_token field (none when the body has
no such field, which raises a KeyError the except clause catches). -/
structure OAuthResp where
  status : Nat
  body : String
  access_token : Option String
deriving DecidableEq

/-- EntraIDServicePrincipalManager.get_oauth_token, parameterized by the
token endpoint outcome: none is a network fault (the except clause returns
None).  A non-200 status prints the status and body and returns None; a 200
returns the access_token field of the decoded body, with a missing field
again caught into None. -/
def get_oauth_token (resp : Option OAuthResp) : Option String :=
  match resp with
  | none => none
  | some r => if r.status = 200 then r.access_token else none

/-- The state object of a runs/get response as wait_for_run_completion reads
it: the life_cycle_state and result_state strings, with the code's defaults
(UNKNOWN and the empty string) already applied for missing fields. -/
structure RunState where
  life_cycle_state : String
  result_state : String
deriving DecidableEq

/-- The terminal lifecycle states of the poll loop. -/
def isTerminalState (s : String) : Bool :=
  s == "TERMINATED" || s == "SKIPPED" || s == "INTERNAL_ERROR"

/-- What the loop returns on a terminal observation: result_state if
non-empty (Python truthiness of the string), else life_cycle_state. -/
def terminalReturn (st : RunState) : String :=
  if st.result_state ≠ "" then st.result_state else st.life_cycle_state

/-- Whether the k-th get_run_status observation is a terminal one; a None
observation (non-200 status or transport fault) is not. -/
def isTerminalObs (statuses : Nat → Option RunState) (k : Nat) : Bool :=
  match statuses k with
  | some st => isTerminalState st.life_cycle_state
  | none => false

/-- The while loop of ServerlessJobManager.wait_for_run_completion.  The
statuses argument gives the outcome of the k-th get_run_status call (none
when it returned None).  elapsed is the wall clock relative to start_time;
every non-terminal iteration sleeps poll seconds, the only advance of the
clock in the model.  The result pairs the returned string with the number
of get_run_status calls made.  fuel bounds the recursion; the top-level
wrapper passes enough fuel that it never runs out while the while guard
still holds (poll must be positive for that, see the fuel lemmas). -/
def wait_go (statuses : Nat → Option RunState) (maxWait poll : Nat) :
    Nat → Nat → Nat → String × Nat
  | 0, _, _ => ("TIMEOUT", 0)
  | fuel + 1, k, elapsed =>
      if elapsed < maxWait then
        match statuses k with
        | some st =>
            if isTerminalState st.life_cycle_state then (terminalReturn st, 1)
            else
              let r := wait_go statuses maxWait poll fuel (k + 1) (elapsed + poll)
              (r.1, r.2 + 1)
        | none =>
            let r := wait_go statuses maxWait poll fuel (k + 1) (elapsed + poll)
            (r.1, r.2 + 1)
      else ("TIMEOUT", 0)

/-- ServerlessJobManager.wait_for_run_completion: run the poll loop from a
zero clock.  With a positive poll interval the clock reaches maxWait after
at most maxWait iterations, so maxWait + 1 units of fuel are never
exhausted before the while guard fails. -/
def wait_for_run_completion (statuses : Nat → Option RunState)
    (maxWait poll : Nat) : String × Nat :=
  wait_go statuses maxWait poll (maxWait + 1) 0 0

/-- One task entry of a runs/get response as get_task_run_output reads it:
the task_key and the task's own run_id (none when the field is absent; the
code also treats a zero id as absent through Python truthiness). -/
structure TaskRun where
  task_key : String
  run_id : Option Nat
deriving DecidableEq

/-- The runs/get response body as get_task_run_output reads it: the tasks
array. -/
structure RunDetails where
  tasks : List TaskRun
deriving DecidableEq

/-- A runs/get-output response: HTTP status, the decoded message field of
the body (empty when absent) and the body itself as the returned output. -/
structure OutputResp where
  status : Nat
  message : String
  payload : String
deriving DecidableEq

/-- The remote API as the output-retrieval functions exercise it: runsGet
gives the decoded runs/get body for a run id (none for a non-200 status)
and getOutput gives the runs/get-output response for a run id. -/
structure OutputApi where
  runsGet : Nat → Option RunDetails
  getOutput : Nat → OutputResp

/-- The for loop of ServerlessJobManager.get_task_run_output over the tasks
array: for each task whose task_key matches, a truthy run_id leads to a
runs/get-output request for that id; a 200 returns its body at once, any
other status logs and continues with the remaining tasks; a falsy run_id
skips the task.  The second component records the run ids passed to the
runs/get-output endpoint, in order. -/
def scan_tasks (api : OutputApi) (task_key : String) :
    List TaskRun → Option String × List Nat
  | [] => (none, [])
  | t :: rest =>
      if t.task_key == task_key then
        match t.run_id with
        | some rid =>
            if rid ≠ 0 then
              let resp := api.getOutput rid
              if resp.status = 200 then (some resp.payload, [rid])
              else
                let r := scan_tasks api task_key rest
                (r.1, rid :: r.2)
            else scan_tasks api task_key rest
        | none => scan_tasks api task_key rest
      else scan_tasks api task_key rest

/-- ServerlessJobManager.get_task_run_output: fetch the run details, then
scan the tasks array for the requested key, fetching output by each
matching task's own run_id.  A failed details fetch returns None with no
output request issued. -/
def get_task_run_output (api : OutputApi) (run_id : Nat) (task_key : String) :
    Option String × List Nat :=
  match api.runsGet run_id with
  | none => (none, [])
  | some details => scan_tasks api task_key details.tasks

/-- ServerlessJobManager.get_run_output: first request output directly for
the parent run id; a 200 returns the body; a 400 whose decoded message
contains the multiple-tasks phrase (lowercased) falls back to
get_task_run_output with the fixed key process_data; any other 400, and any
other status, yields None.  The second component again records the run ids
passed to the runs/get-output endpoint, the parent id first. -/
def get_run_output (api : OutputApi) (run_id : Nat) :
    Option String × List Nat :=
  let resp := api.getOutput run_id
  if resp.status = 200 then (some resp.payload, [run_id])
  else if resp.status = 400 then
    if textContains (lowerString resp.message) "multiple tasks" then
      let r := get_task_run_output api run_id "process_data"
      (r.1, run_id :: r.2)
    else (none, [run_id])
  else (none, [run_id])

/-- The mutable fields of a ServerlessJobManager instance that the auth
methods touch: the workspace url, the two header entries, and the token
remembered at construction. -/
structure ManagerState where
  workspace_url : String
  authorization : String
  content_type : String
  default_token : String
deriving DecidableEq

/-- ServerlessJobManager.__init__: record the workspace url, set the
Authorization header to a Bearer line for the token, fix the content type
and remember the token as default_token. -/
def mkManager (url token : String) : ManagerState :=
  ⟨url, "Bearer " ++ token, "application/json", token⟩

/-- ServerlessJobManager.set_auth_token: overwrite only the Authorization
header entry. -/
def set_auth_token (s : ManagerState) (token : String) : ManagerState :=
  { s with authorization := "Bearer " ++ token }

/-- ServerlessJobManager.reset_auth_token: overwrite the Authorization
header entry with a Bearer line for the remembered default_token. -/
def reset_auth_token (s : ManagerState) : ManagerState :=
  { s with authorization := "Bearer " ++ s.default_token }

/-- An HTTP request as issued by the permission-granting operation. -/
structure AccessControlEntry where
  service_principal_name : String
  permission_level : String
deriving DecidableEq

/-- The body of the permissions request: the access_control_list array. -/
structure PermissionsBody where
  access_control_list : List AccessControlEntry
deriving DecidableEq

/-- A permissions HTTP request: method, path and body. -/
structure PermissionsRequest where
  method : String
  path : String
  body : PermissionsBody
deriving DecidableEq

/-- Modelled from the spec: the permission-granting operation on jobs is
named in the specification's interface list (a PATCH of the job permissions
resource carrying an access_control_list body) but its code is not among
the source files of this repository; the request it issues is modelled
here from the specification's words. -/
def grant_job_permissions (job_id : Nat) (acl : List AccessControlEntry) :
    PermissionsRequest :=
  { method := "PATCH"
  , path := "/api/2.0/permissions/jobs/" ++ toString job_id
  , body := { access_control_list := acl } }

/-- A status sequence that terminates on the second observation: used to
exercise the poll loop at a concrete input. -/
def terminatingStatuses : Nat → Option RunState :=
  fun k => if k = 1 then some ⟨"TERMINATED", "SUCCESS"⟩ else some ⟨"RUNNING", ""⟩

/-- A status sequence that never reaches a terminal state. -/
def runningStatuses : Nat → Option RunState :=
  fun _ => some ⟨"RUNNING", ""⟩

/-- A concrete remote API for the multi-task output fallback: the direct
output call for run 100 answers 400 with a multiple-tasks message, the run
details list one process_data task with sub-run id 555, and the output call
for 555 answers 200. -/
def multiTaskApi : OutputApi :=
  { runsGet := fun rid =>
      if rid = 100 then some ⟨[⟨"process_data", some 555⟩]⟩ else none
  , getOutput := fun rid =>
      if rid = 100 then ⟨400, "A job run with multiple tasks was found.", ""⟩
      else if rid = 555 then ⟨200, "", "notebook-output"⟩
      else ⟨404, "", ""⟩ }

/-- C8: get_job_by_name returns a job only when its settings.name equals the
queried name exactly, and returns None when no listed job matches exactly
(in particular a query for Foo matches neither foo-bar nor Foo2, as the
witness instantiates). -/
theorem get_job_by_name_exact_match (reply : Except Unit JobListResp)
    (job_name : String) :
    (∀ j, get_job_by_name reply job_name = some j → j.settings_name = job_name)
    ∧ (∀ r : JobListResp, reply = Except.ok r →
        (∀ j ∈ r.jobs, j.settings_name ≠ job_name) →
        get_job_by_name reply job_name = none) := by
  constructor
  · intro j hj
    cases reply with
    | error e => simp [get_job_by_name] at hj
    | ok r =>
        simp only [get_job_by_name] at hj
        split at hj
        · exact absurd hj (by simp)
        · simpa using List.find?_some hj
  · intro r hr hnone
    subst hr
    simp only [get_job_by_name]
    split
    · rfl
    · rw [List.find?_eq_none.mpr]
      intro j hj
      simpa using hnone j hj

/-- C8 witness: a listing holding only foo-bar and Foo2 answers None to a
query for Foo. -/
theorem get_job_by_name_exact_match_witness :
    get_job_by_name (Except.ok ⟨200, [⟨1, "foo-bar"⟩, ⟨2, "Foo2"⟩]⟩) "Foo" =
      none :=
  (get_job_by_name_exact_match
      (Except.ok ⟨200, [⟨1, "foo-bar"⟩, ⟨2, "Foo2"⟩]⟩) "Foo").2
    ⟨200, [⟨1, "foo-bar"⟩, ⟨2, "Foo2"⟩]⟩ rfl (by decide)

/-- C10: set_auth_token changes only the Authorization header, and after any
sequence of set_auth_token calls a reset_auth_token restores the manager
state to its construction state, Bearer line of the construction token
included. -/
theorem set_auth_token_frame_and_reset (url token : String)
    (toks : List String) :
    (∀ (s : ManagerState) (t : String),
      (set_auth_token s t).workspace_url = s.workspace_url
      ∧ (set_auth_token s t).default_token = s.default_token
      ∧ (set_auth_token s t).content_type = s.content_type
      ∧ (set_auth_token s t).authorization = "Bearer " ++ t)
    ∧ reset_auth_token (toks.foldl set_auth_token (mkManager url token)) =
        mkManager url token := by
  constructor
  · intro s t
    exact ⟨rfl, rfl, rfl, rfl⟩
  · have key : ∀ (l : List String) (s : ManagerState),
        (l.foldl set_auth_token s).workspace_url = s.workspace_url
        ∧ (l.foldl set_auth_token s).default_token = s.default_token
        ∧ (l.foldl set_auth_token s).content_type = s.content_type := by
      intro l
      induction l with
      | nil => intro s; exact ⟨rfl, rfl, rfl⟩
      | cons a l ih =>
          intro s
          simpa [set_auth_token] using ih (set_auth_token s a)
    have k := key toks (mkManager url token)
    cases hfold : toks.foldl set_auth_token (mkManager url token) with
    | mk w a c d =>
        rw [hfold] at k
        obtain ⟨k1, k2, k3⟩ := k
        simp only [mkManager] at k1 k2 k3
        simp [reset_auth_token, mkManager, k1, k2, k3]

/-- C5 (amended): get_oauth_token returns the decoded access token exactly
on an HTTP 200 response, and returns None on any other status and on a
network fault; no structured error carrying status or body is produced. -/
theorem get_oauth_token_result (r : OAuthResp) :
    (r.status = 200 → get_oauth_token (some r) = r.access_token)
    ∧ (r.status ≠ 200 → get_oauth_token (some r) = none)
    ∧ get_oauth_token none = none :=
  ⟨fun h => by simp [get_oauth_token, h],
   fun h => by simp [get_oauth_token, h],
   rfl⟩

/-- C5 witness: a 200 carrying a token yields that token; a 500 yields
None. -/
theorem get_oauth_token_result_witness :
    get_oauth_token (some ⟨200, "", some "tok"⟩) = some "tok"
    ∧ get_oauth_token (some ⟨500, "server error", none⟩) = none :=
  ⟨(get_oauth_token_result ⟨200, "", some "tok"⟩).1 rfl,
   (get_oauth_token_result ⟨500, "server error", none⟩).2.1 (by decide)⟩

/-- C5 counterexample: two token-endpoint failures with different status
codes and bodies produce the identical result None, so the failure result
carries neither the status code nor the response body, against the claim
that the resolver fails with an AuthError carrying both. -/
theorem get_oauth_token_counterexample :
    get_oauth_token (some ⟨500, "server error", none⟩) = none
    ∧ get_oauth_token (some ⟨403, "forbidden", none⟩) = none
    ∧ (500 : Nat) ≠ 403 := by
  refine ⟨by decide, by decide, by decide⟩

/-- C9 (spec-modelled): the permission-granting operation issues a PATCH of
the job permissions resource for the given job id, carrying the
access_control_list body. -/
theorem grant_job_permissions_request (job_id : Nat)
    (acl : List AccessControlEntry) :
    (grant_job_permissions job_id acl).method = "PATCH"
    ∧ (grant_job_permissions job_id acl).path =
        "/api/2.0/permissions/jobs/" ++ toString job_id
    ∧ (grant_job_permissions job_id acl).body.access_control_list = acl :=
  ⟨rfl, rfl, rfl⟩

/-- C6 (amended): the job-by-name lookup and the by-applicationId lookup
swallow transport faults and non-success statuses, answering None; the
by-displayName lookup instead propagates a transport fault and raises on
any status of 400 or more. -/
theorem lookup_failure_handling (job_name app_id display_name : String) :
    get_job_by_name (Except.error ()) job_name = none
    ∧ (∀ r : JobListResp, 400 ≤ r.status →
        get_job_by_name (Except.ok r) job_name = none)
    ∧ (∀ lr, get_sp_by_application_id (Except.error ()) lr app_id = none)
    ∧ (∀ fr lr : SpListResp, fr.status ≠ 200 → lr.status ≠ 200 →
        get_sp_by_application_id (Except.ok fr) (Except.ok lr) app_id = none)
    ∧ get_service_principal_by_name (Except.error ()) display_name =
        Except.error ()
    ∧ (∀ r : SpListResp, 400 ≤ r.status →
        get_service_principal_by_name (Except.ok r) display_name =
          Except.error ()) := by
  refine ⟨rfl, ?_, ?_, ?_, rfl, ?_⟩
  · intro r h
    simp [get_job_by_name, h]
  · intro lr
    rfl
  · intro fr lr hf hl
    simp [get_sp_by_application_id, hf, hl]
  · intro r h
    simp [get_service_principal_by_name, h]

/-- C6 witness: concrete instances of the amended behaviour at status
500. -/
theorem lookup_failure_handling_witness :
    get_job_by_name (Except.ok ⟨500, [⟨1, "Foo"⟩]⟩) "Foo" = none
    ∧ get_sp_by_application_id (Except.ok ⟨500, [⟨"a", "n"⟩]⟩)
        (Except.ok ⟨500, [⟨"a", "n"⟩]⟩) "a" = none :=
  ⟨(lookup_failure_handling "Foo" "a" "n").2.1 ⟨500, [⟨1, "Foo"⟩]⟩ (by decide),
   (lookup_failure_handling "Foo" "a" "n").2.2.2.1 ⟨500, [⟨"a", "n"⟩]⟩
     ⟨500, [⟨"a", "n"⟩]⟩ (by decide) (by decide)⟩

/-- C6 counterexample: a 500 reply to the by-displayName lookup makes it
raise (raise_for_status, no surrounding try/except) instead of answering
None as the claim states for every lookup. -/
theorem lookup_failure_counterexample :
    get_service_principal_by_name (Except.ok ⟨500, []⟩) "regional-sp" =
      Except.error () := by
  simp [get_service_principal_by_name]

/-- C2: against a faithful remote API, running create-or-get twice for the
same job name yields the same job (same job id) both times, and across the
two calls at most one jobs/create request is issued. -/
theorem create_or_get_idempotent (s : JobsApiState) (job_name : String) :
    (create_or_get_against_api (create_or_get_against_api s job_name).2
        job_name).1 = (create_or_get_against_api s job_name).1
    ∧ (create_or_get_against_api (create_or_get_against_api s job_name).2
        job_name).2.createCalls ≤ s.createCalls + 1 := by
  cases h : get_job_by_name (api_list s) job_name with
  | some j =>
      simp only [create_or_get_against_api, h]
      refine ⟨?_, Nat.le_succ _⟩
      trivial
  | none =>
      have hfind : s.jobs.find? (fun j => j.settings_name == job_name) = none := by
        simpa [get_job_by_name, api_list] using h
      have h2 : get_job_by_name (api_list (api_create s job_name).2) job_name =
          some ⟨s.nextId, job_name⟩ := by
        simp [get_job_by_name, api_list, api_create, List.find?_append, hfind,
          List.find?]
      simp only [create_or_get_against_api, h, h2]
      exact ⟨rfl, Nat.le_refl _⟩

/-- C3 (amended): the conflict fallback differs per operation.  The jobs
operation falls back exactly when creation is non-2xx and the lowercased
body contains already exists or duplicate, returning the job of the
subsequent lookup and raising when that lookup finds none; the Entra
identity operation falls back exactly on HTTP 409, its result being
precisely the subsequent find-by-applicationId result; the workspace
identity operation returns the find-by-displayName result both on 409 and
on every other error status. -/
theorem conflict_fallback_per_operation :
    (∀ (l1 : Except Unit JobListResp) (cr : JobCreateResp)
        (l2 : Except Unit JobListResp) (job_name : String) (j : Job),
      get_job_by_name l1 job_name = none →
      cr.status ≠ 200 → cr.status ≠ 201 →
      (textContains (lowerString cr.body) "already exists" = true ∨
        textContains (lowerString cr.body) "duplicate" = true) →
      get_job_by_name l2 job_name = some j →
      create_or_get_serverless_job l1 cr l2 job_name = Except.ok j)
    ∧ (∀ (l1 : Except Unit JobListResp) (cr : JobCreateResp)
        (l2 : Except Unit JobListResp) (job_name : String),
      get_job_by_name l1 job_name = none →
      cr.status ≠ 200 → cr.status ≠ 201 →
      get_job_by_name l2 job_name = none →
      create_or_get_serverless_job l1 cr l2 job_name = Except.error ())
    ∧ (∀ (cr : SpCreateResp) (post : Option SP),
      cr.status = 409 → register_sp_in_workspace none cr post = post)
    ∧ (∀ (cr : SpCreateResp) (l1 l2 : Except Unit SpListResp)
        (display_name : String) (v : Option SP),
      cr.status = 409 →
      get_service_principal_by_name l1 display_name = Except.ok v →
      create_service_principal cr l1 l2 display_name = Except.ok v)
    ∧ (∀ (cr : SpCreateResp) (l1 l2 : Except Unit SpListResp)
        (display_name : String),
      400 ≤ cr.status → cr.status ≠ 409 →
      create_service_principal cr l1 l2 display_name =
        get_service_principal_by_name l2 display_name) := by
  refine ⟨?_, ?_, ?_, ?_, ?_⟩
  · intro l1 cr l2 job_name j h1 h200 h201 hphrase h2
    simp only [create_or_get_serverless_job, h1]
    rw [if_neg (by simp [h200, h201])]
    rw [if_pos hphrase]
    simp [h2]
  · intro l1 cr l2 job_name h1 h200 h201 h2
    simp only [create_or_get_serverless_job, h1]
    rw [if_neg (by simp [h200, h201])]
    split
    · simp [h2]
    · rfl
  · intro cr post h
    simp [register_sp_in_workspace, h]
  · intro cr l1 l2 display_name v h hv
    simp [create_service_principal, h, hv]
  · intro cr l1 l2 display_name h h409
    simp [create_service_principal, h409, h]

/-- C3 witness: a non-2xx creation whose body mentions already exists falls
back to the lookup's job, and a 409 on the Entra path returns the
subsequent lookup's service principal. -/
theorem conflict_fallback_per_operation_witness :
    create_or_get_serverless_job (Except.ok ⟨200, []⟩)
        ⟨400, "Job with name Foo already exists", none⟩
        (Except.ok ⟨200, [⟨7, "Foo"⟩]⟩) "Foo" = Except.ok ⟨7, "Foo"⟩
    ∧ register_sp_in_workspace none ⟨409, "conflict", none⟩
        (some ⟨"app-1", "sp-1"⟩) = some ⟨"app-1", "sp-1"⟩ :=
  ⟨conflict_fallback_per_operation.1 (Except.ok ⟨200, []⟩)
      ⟨400, "Job with name Foo already exists", none⟩
      (Except.ok ⟨200, [⟨7, "Foo"⟩]⟩) "Foo" ⟨7, "Foo"⟩
      (by decide) (by decide) (by decide) (Or.inl (by decide)) (by decide),
   conflict_fallback_per_operation.2.2.1 ⟨409, "conflict", none⟩
      (some ⟨"app-1", "sp-1"⟩) rfl⟩

/-- C3 counterexample: a creation answered 409 with a body carrying neither
already exists nor duplicate makes the jobs operation raise, while the
subsequent lookup returns the job; the claimed fallback-on-409 does not
hold for the jobs operation. -/
theorem conflict_fallback_counterexample :
    create_or_get_serverless_job (Except.ok ⟨200, []⟩)
        ⟨409, "resource conflict", none⟩
        (Except.ok ⟨200, [⟨7, "Foo"⟩]⟩) "Foo" = Except.error ()
    ∧ get_job_by_name (Except.ok ⟨200, [⟨7, "Foo"⟩]⟩) "Foo" =
        some ⟨7, "Foo"⟩ := by
  constructor
  · rfl
  · decide

/-- C7: on a direct output call answered 400 with a message mentioning
multiple tasks, get_run_output falls back to get_task_run_output for the
fixed key process_data; any other 400 yields None after only the direct
call; and the fallback fetches output using the matching task's own run_id,
not the parent's. -/
theorem get_run_output_multitask_fallback (api : OutputApi) (run_id : Nat) :
    ((api.getOutput run_id).status = 400 →
      textContains (lowerString (api.getOutput run_id).message) "multiple tasks" =
        true →
      get_run_output api run_id =
        ((get_task_run_output api run_id "process_data").1,
          run_id :: (get_task_run_output api run_id "process_data").2))
    ∧ ((api.getOutput run_id).status = 400 →
      textContains (lowerString (api.getOutput run_id).message) "multiple tasks" =
        false →
      get_run_output api run_id = (none, [run_id]))
    ∧ (∀ (t : TaskRun) (rest : List TaskRun) (rid : Nat),
      api.runsGet run_id = some ⟨t :: rest⟩ →
      t.task_key = "process_data" → t.run_id = some rid → rid ≠ 0 →
      (api.getOutput rid).status = 200 →
      get_task_run_output api run_id "process_data" =
        (some (api.getOutput rid).payload, [rid])) := by
  refine ⟨?_, ?_, ?_⟩
  · intro h400 htext
    simp [get_run_output, h400, htext]
  · intro h400 htext
    simp [get_run_output, h400, htext]
  · intro t rest rid hdet hkey hrid hrid0 hstat
    simp [get_task_run_output, hdet, scan_tasks, hkey, hrid, hrid0, hstat]

/-- C7 witness: against the concrete multi-task API, the direct call for
run 100 triggers the fallback and the output is fetched with the task's
sub-run id 555, so the output endpoint sees 100 then 555 and the task's
output is returned. -/
theorem get_run_output_multitask_fallback_witness :
    get_run_output multiTaskApi 100 = (some "notebook-output", [100, 555]) := by
  have h1 := (get_run_output_multitask_fallback multiTaskApi 100).1
    (by decide) (by decide)
  have h3 := (get_run_output_multitask_fallback multiTaskApi 100).2.2
    ⟨"process_data", some 555⟩ [] 555 (by decide) rfl rfl
    (by decide) (by decide)
  rw [h1, h3]
  rfl

/-- If the first terminal observation lies inside the wall-clock window,
the poll loop returns its terminal string.  Generalized over the fuel and
the iteration index, with the clock after k iterations standing at
k * poll; the fuel bound guarantees the loop is not cut short. -/
theorem wait_go_reaches_terminal (statuses : Nat → Option RunState)
    (maxWait poll : Nat) (st : RunState) (t : Nat)
    (hst : statuses t = some st)
    (hterm : isTerminalState st.life_cycle_state = true)
    (ht : t * poll < maxWait) :
    ∀ fuel k, k ≤ t → maxWait ≤ k * poll + fuel * poll →
      (∀ i, k ≤ i → i < t → isTerminalObs statuses i = false) →
      (wait_go statuses maxWait poll fuel k (k * poll)).1 = terminalReturn st := by
  intro fuel
  induction fuel with
  | zero =>
      intro k hk hfuel _
      exfalso
      have h1 : k * poll ≤ t * poll := Nat.mul_le_mul_right poll hk
      have h2 : maxWait ≤ k * poll := by simpa using hfuel
      exact Nat.lt_irrefl maxWait (lt_of_le_of_lt (le_trans h2 h1) ht)
  | succ fuel ih =>
      intro k hk hfuel hpre
      have hlt : k * poll < maxWait :=
        lt_of_le_of_lt (Nat.mul_le_mul_right poll hk) ht
      rcases Nat.eq_or_lt_of_le hk with heq | hklt
      · subst heq
        simp only [wait_go, hst]
        rw [if_pos hlt, if_pos hterm]
      · have hobs := hpre k le_rfl hklt
        have hrec : maxWait ≤ (k + 1) * poll + fuel * poll := by
          have he : (k + 1) * poll + fuel * poll = k * poll + (fuel + 1) * poll := by
            ring
          rw [he]
          exact hfuel
        have hpre2 : ∀ i, k + 1 ≤ i → i < t → isTerminalObs statuses i = false :=
          fun i hi1 hi2 => hpre i (le_trans (Nat.le_succ k) hi1) hi2
        have ihk := ih (k + 1) hklt hrec hpre2
        have hstep : k * poll + poll = (k + 1) * poll := (Nat.succ_mul k poll).symm
        cases hsk : statuses k with
        | some st2 =>
            have hnt : isTerminalState st2.life_cycle_state = false := by
              simpa [isTerminalObs, hsk] using hobs
            simp only [wait_go, hsk]
            rw [if_pos hlt, if_neg (by simp [hnt])]
            show (wait_go statuses maxWait poll fuel (k + 1) (k * poll + poll)).1 =
              terminalReturn st
            rw [hstep]
            exact ihk
        | none =>
            simp only [wait_go, hsk]
            rw [if_pos hlt]
            show (wait_go statuses maxWait poll fuel (k + 1) (k * poll + poll)).1 =
              terminalReturn st
            rw [hstep]
            exact ihk

/-- If no observation inside the wall-clock window is terminal, the poll
loop returns the TIMEOUT sentinel, for every fuel. -/
theorem wait_go_timeout (statuses : Nat → Option RunState) (maxWait poll : Nat)
    (hnone : ∀ j, j * poll < maxWait → isTerminalObs statuses j = false) :
    ∀ fuel k, (wait_go statuses maxWait poll fuel k (k * poll)).1 = "TIMEOUT" := by
  intro fuel
  induction fuel with
  | zero => intro k; rfl
  | succ fuel ih =>
      intro k
      by_cases hlt : k * poll < maxWait
      · have hobs := hnone k hlt
        have hstep : k * poll + poll = (k + 1) * poll := (Nat.succ_mul k poll).symm
        cases hsk : statuses k with
        | some st2 =>
            have hnt : isTerminalState st2.life_cycle_state = false := by
              simpa [isTerminalObs, hsk] using hobs
            simp only [wait_go, hsk]
            rw [if_pos hlt, if_neg (by simp [hnt])]
            show (wait_go statuses maxWait poll fuel (k + 1) (k * poll + poll)).1 =
              "TIMEOUT"
            rw [hstep]
            exact ih (k + 1)
        | none =>
            simp only [wait_go, hsk]
            rw [if_pos hlt]
            show (wait_go statuses maxWait poll fuel (k + 1) (k * poll + poll)).1 =
              "TIMEOUT"
            rw [hstep]
            exact ih (k + 1)
      · simp only [wait_go]
        rw [if_neg hlt]

/-- The number of get_run_status calls the poll loop makes is at most any n
large enough that n sleeps starting from the current clock exhaust the
wall-clock budget. -/
theorem wait_go_count (statuses : Nat → Option RunState) (maxWait poll : Nat) :
    ∀ fuel n k elapsed, maxWait ≤ elapsed + n * poll →
      (wait_go statuses maxWait poll fuel k elapsed).2 ≤ n := by
  intro fuel
  induction fuel with
  | zero => intro n k e _; exact Nat.zero_le n
  | succ fuel ih =>
      intro n k e hn
      by_cases hlt : e < maxWait
      · have hn0 : n ≠ 0 := by
          rintro rfl
          simp at hn
          omega
        obtain ⟨m, rfl⟩ := Nat.exists_eq_succ_of_ne_zero hn0
        have hrec : maxWait ≤ e + poll + m * poll := by
          have he : e + poll + m * poll = e + (m + 1) * poll := by ring
          rw [he]
          exact hn
        cases hsk : statuses k with
        | some st2 =>
            by_cases hterm : isTerminalState st2.life_cycle_state = true
            · simp only [wait_go, hsk]
              rw [if_pos hlt, if_pos hterm]
              exact Nat.succ_le_succ (Nat.zero_le m)
            · simp only [wait_go, hsk]
              rw [if_pos hlt, if_neg hterm]
              show (wait_go statuses maxWait poll fuel (k + 1) (e + poll)).2 + 1 ≤
                m + 1
              exact Nat.succ_le_succ (ih m (k + 1) (e + poll) hrec)
        | none =>
            simp only [wait_go, hsk]
            rw [if_pos hlt]
            show (wait_go statuses maxWait poll fuel (k + 1) (e + poll)).2 + 1 ≤
              m + 1
            exact Nat.succ_le_succ (ih m (k + 1) (e + poll) hrec)
      · simp only [wait_go]
        rw [if_neg hlt]
        exact Nat.zero_le _

/-- C1: the poll loop of wait_for_run_completion, with a positive poll
interval.  If the first terminal observation (lifecycle state TERMINATED,
SKIPPED or INTERNAL_ERROR) falls inside the wall-clock budget, the call
returns result_state when non-empty and life_cycle_state otherwise; every
earlier observation, terminal-free or absent, only costs one poll-interval
sleep.  If no observation inside the budget is terminal, the call returns
the TIMEOUT sentinel once the budget elapses. -/
theorem wait_for_run_completion_spec (statuses : Nat → Option RunState)
    (maxWait poll : Nat) (hpoll : 0 < poll) :
    (∀ (t : Nat) (st : RunState), t * poll < maxWait → statuses t = some st →
      isTerminalState st.life_cycle_state = true →
      (∀ i, i < t → isTerminalObs statuses i = false) →
      (wait_for_run_completion statuses maxWait poll).1 = terminalReturn st)
    ∧ ((∀ t, t * poll < maxWait → isTerminalObs statuses t = false) →
      (wait_for_run_completion statuses maxWait poll).1 = "TIMEOUT") := by
  constructor
  · intro t st ht hst hterm hpre
    have hfuel : maxWait ≤ 0 * poll + (maxWait + 1) * poll := by
      have h1 : (maxWait + 1) * 1 ≤ (maxWait + 1) * poll :=
        Nat.mul_le_mul_left (maxWait + 1) hpoll
      simp only [Nat.mul_one] at h1
      simp only [Nat.zero_mul, Nat.zero_add]
      exact le_trans (Nat.le_succ maxWait) h1
    have h := wait_go_reaches_terminal statuses maxWait poll st t hst hterm ht
      (maxWait + 1) 0 (Nat.zero_le t) hfuel (fun i _ hi2 => hpre i hi2)
    simpa [wait_for_run_completion, Nat.zero_mul] using h
  · intro hall
    have h := wait_go_timeout statuses maxWait poll hall (maxWait + 1) 0
    simpa [wait_for_run_completion, Nat.zero_mul] using h

/-- C1 witness: a run observed RUNNING once and TERMINATED with result
SUCCESS on the second poll, under a 10 second budget at a 2 second
interval, yields SUCCESS. -/
theorem wait_for_run_completion_spec_witness :
    (wait_for_run_completion terminatingStatuses 10 2).1 = "SUCCESS" := by
  have hpre : ∀ i, i < 1 → isTerminalObs terminatingStatuses i = false := by
    intro i hi
    have h0 : i = 0 := Nat.lt_one_iff.mp hi
    subst h0
    decide
  have h := (wait_for_run_completion_spec terminatingStatuses 10 2
      (by decide)).1 1 ⟨"TERMINATED", "SUCCESS"⟩ (by decide) (by decide)
      (by decide) hpre
  rw [h]
  decide

/-- C4: with a 5 second budget and a 2 second poll interval, a run that
never reaches a terminal state makes wait_for_run_completion return the
TIMEOUT sentinel after at most 3 get_run_status calls. -/
theorem wait_timeout_budget (statuses : Nat → Option RunState)
    (h : ∀ k, isTerminalObs statuses k = false) :
    (wait_for_run_completion statuses 5 2).1 = "TIMEOUT"
    ∧ (wait_for_run_completion statuses 5 2).2 ≤ 3 := by
  constructor
  · have hto := wait_go_timeout statuses 5 2 (fun j _ => h j) (5 + 1) 0
    simpa [wait_for_run_completion, Nat.zero_mul] using hto
  · have hc := wait_go_count statuses 5 2 (5 + 1) 3 0 0 (by norm_num)
    simpa [wait_for_run_completion] using hc

/-- C4 witness: the concrete always-RUNNING status sequence times out after
at most 3 status calls. -/
theorem wait_timeout_budget_witness :
    (wait_for_run_completion runningStatuses 5 2).1 = "TIMEOUT"
    ∧ (wait_for_run_completion runningStatuses 5 2).2 ≤ 3 :=
  wait_timeout_budget runningStatuses (fun _ => rfl)
